import Mathlib

/-!
Verification of the retrieval-augmented answering pipeline of the for-ummah
repository (Agent Deen). The Python modules `src/core/language.py`,
`src/ai/translator.py`, `src/ai/rag.py`, `src/ai/prompts.py` and
`src/services/chat.py` are shallowly embedded below: pure functions become
Lean functions, external capabilities (vector search, cross-encoder,
Google-translate, langdetect, LLM generation) become explicit function
fields of an environment record, and exceptions become `Option`/`Except`.
Scores (cosine similarities and cross-encoder logits) are modelled as exact
rationals.  Everything lives in the `Deen` namespace.
-/

namespace Deen


/-! ## Python string primitives used by the embedded modules -/

/-- ASCII whitespace as recognised by Python's `str.strip`/`str.split`/`\s`. -/
def pySpaceB (c : Char) : Bool :=
  c = ' ' || c = '\t' || c = '\n' || c = '\r' || c = '\x0b' || c = '\x0c'

/-- Python `str.strip()` (whitespace stripped from both ends). -/
def pyStrip (s : String) : String :=
  ⟨((s.data.dropWhile pySpaceB).reverse.dropWhile pySpaceB).reverse⟩

/-- Whitespace-run splitting of a character list; `acc` is the (reversed)
word currently being read. -/
def wsSplit : List Char → List Char → List (List Char)
  | [], acc => if acc.isEmpty then [] else [acc.reverse]
  | c :: rest, acc =>
    if pySpaceB c then
      if acc.isEmpty then wsSplit rest [] else acc.reverse :: wsSplit rest []
    else wsSplit rest (c :: acc)

/-- Python `str.split()` with no argument: whitespace-separated words. -/
def pyWords (s : String) : List String :=
  (wsSplit s.data []).map fun w => ⟨w⟩

/-- ASCII lower-casing of one character (Python `str.lower` on the ASCII
range, enough for the inputs and markers involved). -/
def charLower (c : Char) : Char :=
  if 'A' ≤ c && c ≤ 'Z' then Char.ofNat (c.toNat + 32) else c

/-- Python `str.lower()`. -/
def pyLower (s : String) : String := ⟨s.data.map charLower⟩

/-- Boolean list-prefix test on characters. -/
def isPrefixB : List Char → List Char → Bool
  | [], _ => true
  | _ :: _, [] => false
  | a :: as, b :: bs => a = b && isPrefixB as bs

/-- Boolean substring test on characters: Python's `needle in haystack`. -/
def isSubstrB (needle : List Char) : List Char → Bool
  | [] => isPrefixB needle []
  | c :: rest => isPrefixB needle (c :: rest) || isSubstrB needle rest

/-- Python `needle in haystack` on strings. -/
def pyContains (needle haystack : String) : Bool :=
  isSubstrB needle.data haystack.data

/-! ## `src/core/language.py` -/

/-- `Language` enum from `src/core/language.py`. -/
inductive Language where
  | ARABIC
  | ENGLISH
  | MALAY
  | MIXED
deriving DecidableEq, Repr

/-- `Language.value` (the enum's string value). -/
def Language.value : Language → String
  | .ARABIC => "ar"
  | .ENGLISH => "en"
  | .MALAY => "ms"
  | .MIXED => "mixed"

/-- `Language.display_name` property (the `names` dict covers all four values). -/
def Language.display_name : Language → String
  | .ARABIC => "العربية (Arabic)"
  | .ENGLISH => "English"
  | .MALAY => "Bahasa Melayu"
  | .MIXED => "Mixed"

/-- Count of characters in the Arabic Unicode block:
`len(re.findall(r'[؀-ۿ]', text))`. -/
def arabicCount (s : String) : Nat :=
  (s.data.filter fun c => 0x600 ≤ c.toNat && c.toNat ≤ 0x6FF).length

/-- Count of Latin letters: `len(re.findall(r'[a-zA-Z]', text))`. -/
def latinCount (s : String) : Nat :=
  (s.data.filter fun c => ('a' ≤ c && c ≤ 'z') || ('A' ≤ c && c ≤ 'Z')).length

/-- The fixed `malay_markers` list from `detect_language`. -/
def malay_markers : List String :=
  [ "adalah", "dengan", "untuk", "yang", "ini", "itu",
    "boleh", "tidak", "ada", "saya", "kita", "dalam",
    "kepada", "daripada", "seperti", "oleh", "tetapi",
    "atau", "jika", "apabila", "kerana", "supaya",
    "apakah", "bagaimana", "mengapa", "siapa", "bila",
    "adakah", "berapa", "mana", "kenapa", "macam",
    "perbankan", "kewangan", "patuh", "syariah", "halal",
    "haram", "faedah", "riba", "pinjaman", "pelaburan",
    "mahu", "hendak", "perlu", "ingin", "akan",
    "telah", "sudah", "sedang", "dapat", "bolehkah" ]

/-- `sum(1 for word in malay_markers if word in text_lower)`: number of
distinct markers occurring as substrings of the lower-cased text. -/
def malayMatchCount (text : String) : Nat :=
  (malay_markers.filter fun w => pyContains w (pyLower text)).length

/-- `detect_language` from `src/core/language.py`.  Python compares the float
ratio `arabic_chars / total` against `0.6` and `0.1`; this is modelled by the
exact equivalent cross-multiplied comparisons `10*arabic > 6*total` and
`10*arabic > total` (`total > 0` holds in those branches). -/
def detect_language (text : String) : Language :=
  if text = "" ∨ pyStrip text = "" then Language.ENGLISH
  else
    let arabic_chars := arabicCount text
    let latin_chars := latinCount text
    let total := arabic_chars + latin_chars
    if total = 0 then Language.ENGLISH
    else
      if 10 * arabic_chars > 6 * total then Language.ARABIC
      else if 10 * arabic_chars > total then Language.MIXED
      else
        let malay_matches := malayMatchCount text
        let word_count := (pyWords text).length
        if word_count ≤ 5 ∧ malay_matches ≥ 1 then Language.MALAY
        else if malay_matches ≥ 2 then Language.MALAY
        else Language.ENGLISH

/-- The language classification as claim C2 words it: English for
empty/whitespace-only input or zero Arabic and Latin letters; Arabic when
`arabicRatio > 0.6`; Mixed when `0.1 < arabicRatio ≤ 0.6`; Malay when the
input has at most 5 words and contains at least one Malay marker word, or
contains at least two distinct Malay marker words; otherwise English. -/
def detect_language_claimed (text : String) : Language :=
  let a := arabicCount text
  let l := latinCount text
  if pyStrip text = "" ∨ a + l = 0 then Language.ENGLISH
  else if ((a : ℚ) / ((a + l : Nat) : ℚ)) > 0.6 then Language.ARABIC
  else if 0.1 < ((a : ℚ) / ((a + l : Nat) : ℚ)) ∧ ((a : ℚ) / ((a + l : Nat) : ℚ)) ≤ 0.6 then
    Language.MIXED
  else if ((pyWords text).length ≤ 5 ∧ 1 ≤ malayMatchCount text) ∨ 2 ≤ malayMatchCount text then
    Language.MALAY
  else Language.ENGLISH

/-! ## `src/ai/translator.py`

The two external capabilities used there — `langdetect.detect` (which may
raise `LangDetectException`) and `deep_translator.GoogleTranslator(source=
"auto", target=...).translate` (which may raise on network/quota errors) —
are modelled as `Option`-valued function fields of `TransEnv`. -/

/-- Capabilities consumed by `src/ai/translator.py`. -/
structure TransEnv where
  /-- `langdetect.detect`; `none` models a raised `LangDetectException`. -/
  langdetect : String → Option String
  /-- `GoogleTranslator(source="auto", target=code).translate(text)`;
  arguments are (text, target code); `none` models a raised exception. -/
  translate : String → String → Option String

/-- The `LANGUAGE_TO_CODE` dict (all four `Language` values are keys, so the
`.get(..., "en")` default is unreachable). -/
def LANGUAGE_TO_CODE : Language → String
  | .ARABIC => "ar"
  | .ENGLISH => "en"
  | .MALAY => "ms"
  | .MIXED => "en"

/-- `detect_output_language` from `src/ai/translator.py`. -/
def detect_output_language (tenv : TransEnv) (text : String) : Option String :=
  if text = "" ∨ (pyStrip text).length < 10 then none
  else tenv.langdetect text

/-- Python `response.split("\n\n")` on character lists (leftmost,
non-overlapping occurrences of the two-newline separator). -/
def splitPP : List Char → List (List Char)
  | [] => [[]]
  | [c] => [[c]]
  | c1 :: c2 :: rest =>
    if c1 = '\n' ∧ c2 = '\n' then [] :: splitPP rest
    else
      match splitPP (c2 :: rest) with
      | [] => [[c1]]
      | p :: ps => (c1 :: p) :: ps

/-- Python `"\n\n".join(parts)` on character lists. -/
def joinPP : List (List Char) → List Char
  | [] => []
  | [p] => p
  | p :: ps => p ++ '\n' :: '\n' :: joinPP ps

/-- `response.split("\n\n")` on strings. -/
def pySplitPP (s : String) : List String := (splitPP s.data).map fun p => ⟨p⟩

/-- `"\n\n".join(parts)` on strings. -/
def joinWithPP : List String → String
  | [] => ""
  | [p] => p
  | p :: ps => p ++ "\n\n" ++ joinWithPP ps

/-- The paragraph loop inside `ensure_response_language`: translate each
non-blank paragraph, keep blank paragraphs as-is; any raised exception
aborts the whole `try` block (`none`). -/
def translateParas (tenv : TransEnv) (target_code : String) :
    List String → Option (List String)
  | [] => some []
  | para :: rest =>
    if pyStrip para ≠ "" then
      match tenv.translate para target_code with
      | none => none
      | some tp =>
        match translateParas tenv target_code rest with
        | none => none
        | some tps => some (tp :: tps)
    else
      match translateParas tenv target_code rest with
      | none => none
      | some tps => some (para :: tps)

/-- The translation `try` block of `ensure_response_language`: direct
translation up to 4500 characters, else paragraph-chunked translation
reassembled with `"\n\n".join`. -/
def translateChunked (tenv : TransEnv) (response target_code : String) :
    Option String :=
  if response.length ≤ 4500 then tenv.translate response target_code
  else
    match translateParas tenv target_code (pySplitPP response) with
    | none => none
    | some parts => some (joinWithPP parts)

/-- The early-return chain of `ensure_response_language` that decides
whether translation is needed: forced, or detection succeeded with a code
that neither equals the target nor is Malay/Indonesian for a Malay target. -/
def needsTranslation (tenv : TransEnv) (response target_code : String)
    (force_translate : Bool) : Bool :=
  if force_translate then true
  else
    match detect_output_language tenv response with
    | none => false
    | some detected_code =>
      if target_code = "ms" ∧ (detected_code = "ms" ∨ detected_code = "id") then false
      else if detected_code = target_code then false
      else true

/-- `ensure_response_language` from `src/ai/translator.py`: skip for
blank responses; unless forced, skip when detection fails, when the
detected code equals the target code, or when the target is Malay and the
detected code is Malay or Indonesian; otherwise translate, falling back to
the original response when translation raises. -/
def ensure_response_language (tenv : TransEnv) (response : String)
    (target_language : Language) (force_translate : Bool := false) : String :=
  if response = "" ∨ pyStrip response = "" then response
  else
    let target_code := LANGUAGE_TO_CODE target_language
    if needsTranslation tenv response target_code force_translate then
      match translateChunked tenv response target_code with
      | some translated => translated
      | none => response
    else response

/-- The convergence condition of claim C9: the language detected on a text
matches the target (Malay and Indonesian both count for a Malay target). -/
def convergedTo (tenv : TransEnv) (text : String) (target : Language) : Prop :=
  ∃ d, detect_output_language tenv text = some d ∧
    (d = LANGUAGE_TO_CODE target ∨
      (LANGUAGE_TO_CODE target = "ms" ∧ (d = "ms" ∨ d = "id")))

/-- Environment for the C9 witness: detection always reports English,
translation always succeeds verbatim-tagged. -/
def wTransEnv9 : TransEnv :=
  { langdetect := fun _ => some "en"
    translate := fun _ _ => some "TRANSLATED" }

/-! ## `src/ai/rag.py`

`RAGPipeline.query` and its helpers.  A retrieved document is the dict
`{"text", "score", "metadata"}` produced by `PineconeStore.search`
(`src/vector_db/pinecone_store.py`), whose metadata keys are optional.
Python float scores (cosine similarities, cross-encoder logits) are modelled
as exact rationals.  The external capabilities (Pinecone search, the
cross-encoder, deep-translator, the LLM backend) are fields of `Env`;
exceptions raised by them are modelled with `Option`/`Except`/`Bool` flags.
Observable stage milestones are recorded as `Event`s so that short-circuit
claims ("the LLM is never called") are statable. -/

/-- Pinecone metadata fields read by `RAGPipeline`; absent keys are `none`.
`rerank_score` is written by the reranking step. -/
structure Metadata where
  source : Option String
  title : Option String
  filename : Option String
  page_number : Option String
  total_pages : Option String
  original_text : Option String
  rerank_score : Option ℚ
deriving DecidableEq, Repr

/-- One retrieved document: `{"text": ..., "score": ..., "metadata": ...}`. -/
structure Doc where
  text : String
  score : ℚ
  metadata : Metadata
deriving DecidableEq, Repr

/-- One entry of the `sources` list built by `RAGPipeline._extract_sources`. -/
structure Src where
  source : String
  file : String
  filename : String
  page : Option String
  total_pages : Option String
  snippet : String
  score : ℚ
deriving DecidableEq, Repr

/-- The `RAGResponse` dataclass. -/
structure RAGResponse where
  answer : String
  sources : List Src
  query_language : Language
  confidence : String
  model_used : String
  reranked : Bool
deriving DecidableEq, Repr

/-- Observable milestones of one `RAGPipeline.query` run. -/
inductive Event where
  | queryTranslateCall (source_code : String) (query : String)
  | vectorSearch (query : String) (top_k : Nat)
  | rerankPredict (query : String)
  | contextAssembly (context : String)
  | promptBuild (prompt : String)
  | llmGenerate (prompt : String)
deriving DecidableEq, Repr

/-- Pipeline state: `settings` values, the reranker (`None` when
`CrossEncoder` initialization failed), a flag modelling a raised exception
inside `reranker.predict`, and the external capabilities. -/
structure Env where
  rag_top_k : Nat
  rag_rerank_top_k : Nat
  rag_relevance_threshold : ℚ
  knowledge_sources : List String
  llm_type : String
  reranker : Option (String → String → ℚ)
  rerankFails : Bool
  search : String → Nat → List Doc
  queryTranslate : String → String → Option String
  generate : String → Except String String
  trans : TransEnv

/-- The `lang_code` dict lookup in `translate_query_to_english`
(`.get(source_lang, "auto")`). -/
def query_lang_code : Language → String
  | .MALAY => "ms"
  | .ARABIC => "ar"
  | .MIXED => "auto"
  | .ENGLISH => "auto"

/-- `translate_query_to_english` from `src/ai/rag.py`: English queries are
returned unchanged without calling the translator; any translation failure
returns the original query.  The second component records whether the
translation capability was invoked. -/
def translate_query_to_english (tr : String → String → Option String)
    (query : String) (source_lang : Language) : String × List Event :=
  if source_lang = Language.ENGLISH then (query, [])
  else
    let lang_code := query_lang_code source_lang
    match tr lang_code query with
    | some translated => (translated, [Event.queryTranslateCall lang_code query])
    | none => (query, [Event.queryTranslateCall lang_code query])

/-- The fixed insufficient-information message of `RAGPipeline.query`. -/
def no_info_msg : String :=
  "I apologize, but I could not find sufficient information in the provided Shariah sources to answer your question."

/-- Lower-case hex digit, as matched by the regex class `[a-f0-9]`. -/
def isHexLowerDigit (c : Char) : Bool :=
  ('0' ≤ c && c ≤ '9') || ('a' ≤ c && c ≤ 'f')

/-- A character of the regex class `[_\s]`. -/
def isHashSep (c : Char) : Bool := c = '_' || pySpaceB c

/-- `re.sub(r'^[a-f0-9]{12}[_\s]+', '', s)`: strip a leading 12-hex-digit
content hash plus the following separator run, if present. -/
def clean12Hex (s : String) : String :=
  let cs := s.data
  if (cs.take 12).length = 12 && (cs.take 12).all isHexLowerDigit &&
      (match cs.drop 12 with
        | c :: _ => isHashSep c
        | [] => false) then
    ⟨(cs.drop 12).dropWhile isHashSep⟩
  else s

/-- Python `sep.join(parts)`. -/
def joinWith (sep : String) : List String → String
  | [] => ""
  | [p] => p
  | p :: ps => p ++ sep ++ joinWith sep ps

/-- The source label built for document `i` (already 1-based) in the
context-assembly loop of `RAGPipeline.query`. -/
def sourceLabelOf (i : Nat) (d : Doc) : String :=
  let source := d.metadata.source.getD "Unknown"
  let title := d.metadata.title.getD ""
  let page := d.metadata.page_number.getD ""
  let raw_filename := d.metadata.filename.getD ""
  let clean_title := clean12Hex title
  let clean_filename := clean12Hex raw_filename
  let display_title := if title ≠ "" ∧ title ≠ "Unknown" then clean_title else clean_filename
  "[Source " ++ toString i ++ ": " ++ source
    ++ (if display_title ≠ "" then " - " ++ display_title else "")
    ++ (if page ≠ "" then ", Page " ++ page else "") ++ "]"

/-- The `context_parts` list of `RAGPipeline.query` (`enumerate` counter
`i`, label uses `i+1`). -/
def buildContextParts : Nat → List Doc → List String
  | _, [] => []
  | i, d :: ds => (sourceLabelOf (i + 1) d ++ "\n" ++ d.text) :: buildContextParts (i + 1) ds

/-- `context = "\n\n---\n\n".join(context_parts)`. -/
def assembleContext (docs : List Doc) : String :=
  joinWith "\n\n---\n\n" (buildContextParts 0 docs)

/-- `SHARIAH_PROMPT.format(...)` from `src/ai/prompts.py`.  The template has
no `{knowledge_sources}` placeholder, so that keyword argument of the
`.format(...)` call in `RAGPipeline.query` is ignored (Python `str.format`
ignores unused keyword arguments); the parameter is kept to mirror the call. -/
def SHARIAH_PROMPT_format (knowledge_sources context question
    query_language response_language : String) : String :=
  "**CRITICAL LANGUAGE RULE: YOU MUST RESPOND ENTIRELY IN " ++ response_language
    ++ ". THIS IS MANDATORY.**\n\nYou are Agent Deen (وكيل الدين), an expert AI assistant specialized ONLY in Islamic Finance and Shariah compliance.\n\nYou are fluent in:\n- العربية (Arabic)\n- English\n- Bahasa Melayu\n\nYour knowledge comes from authoritative sources:\n- Bank Negara Malaysia (BNM) Shariah policies\n- AAOIFI Shariah standards\n- Securities Commission Malaysia resolutions\n- JAKIM fatwas\n\nContext from Shariah Sources:\n"
    ++ context
    ++ "\n\nUser Question (" ++ query_language ++ "): " ++ question
    ++ "\n\nCRITICAL INSTRUCTIONS - YOU MUST FOLLOW THESE EXACTLY:\n\n**LANGUAGE RULE (MOST IMPORTANT):**\n- The user asked in " ++ query_language
    ++ "\n- You MUST respond in " ++ response_language
    ++ "\n- DO NOT respond in English if the question is in Bahasa Melayu\n- DO NOT respond in English if the question is in Arabic\n- Every single sentence of your response must be in " ++ response_language
    ++ "\n\n**STEP 0: CHECK IF QUESTION IS IN SCOPE**\nFirst, determine if the question is about Islamic finance, Shariah compliance, or related topics.\n- IN SCOPE: Questions about: murabaha, tawarruq, sukuk, takaful, riba, zakat, Islamic banking, Shariah rulings, halal finance, waqf, etc.\n- OUT OF SCOPE: Personal questions, greetings, general knowledge, \"who are you\", names, weather, politics, or anything NOT related to Islamic finance.\n\nIf the question is OUT OF SCOPE, respond ONLY with:\n- English: \"I am Agent Deen, specialized only in Islamic finance and Shariah compliance. I can help you with questions about Islamic banking, takaful, sukuk, zakat, and Shariah rulings. Please ask a question related to Islamic finance.\"\n- Malay: \"Saya Agent Deen, pakar dalam kewangan Islam dan pematuhan Syariah sahaja. Saya boleh membantu anda dengan soalan tentang perbankan Islam, takaful, sukuk, zakat, dan keputusan Syariah. Sila tanya soalan berkaitan kewangan Islam.\"\n- Arabic: \"أنا وكيل الدين، متخصص فقط في التمويل الإسلامي والامتثال الشرعي. يمكنني مساعدتك في الأسئلة حول البنوك الإسلامية والتكافل والصكوك والزكاة والأحكام الشرعية.\"\n\nDO NOT cite any sources for out-of-scope questions. DO NOT make up answers.\n\n**IF THE QUESTION IS IN SCOPE, THEN:**\n\n1. **ONLY USE THE CONTEXT ABOVE** - DO NOT add information from your training data or general knowledge.\n   - If something is not in the context, DO NOT mention it.\n   - This is the most important rule. Breaking this rule is a critical failure.\n\n2. **ONLY CITE SOURCES FROM THE CONTEXT** - The sources are numbered [Source 1], [Source 2], etc.\n   - ONLY mention source names that appear in the context above.\n   - DO NOT invent source names, URLs, or organizations.\n   - DO NOT mention \"BNM Policy\" unless it appears in context.\n   - If you\x27re unsure of the exact source name, use the number like \"Source 1\".\n\n3. **CHECK CONTEXT RELEVANCE** - Before answering, verify the context actually relates to the question.\n   - If the retrieved context is about unrelated topics, say you don\x27t have relevant information.\n   - DO NOT force a connection between unrelated context and the question.\n\n4. **START YOUR ANSWER WITH A SOURCE REFERENCE** - Begin with \"Based on [Source Name]...\" or \"Berdasarkan [Nama Sumber]...\" or \"بناءً على [اسم المصدر]...\"\n\n5. **You may summarize and explain in your own words** - But all facts must come from the context.\n\n6. **IF THE CONTEXT IS INSUFFICIENT** - Be honest and say so clearly:\n   - English: \"I don\x27t find enough information in the available Shariah sources to fully answer this question.\"\n   - Malay: \"Maaf, saya tidak menemui maklumat yang mencukupi dalam sumber Syariah yang tersedia.\"\n   - Arabic: \"عذراً، لا أجد معلومات كافية في المصادر الشرعية المتاحة.\"\n\n7. **CITE ALL SOURCES USED** - When your answer draws from multiple sources, list them all.\n\n8. **RESPOND IN " ++ response_language
    ++ "** - This is mandatory. Match the user\x27s language exactly.\n\n9. **DO NOT HALLUCINATE** - If you\x27re unsure, say you\x27re unsure. Never invent fatwas or rulings.\n\nYOUR RESPONSE (in " ++ response_language ++ "):"

/-- Python `text[:200] + "..." if len(text) > 200 else text`. -/
def pyTruncSnippet (t : String) : String :=
  if t.length > 200 then (⟨t.data.take 200⟩ : String) ++ "..." else t

/-- One entry of `RAGPipeline._extract_sources`:
`original_text or doc["text"]` picks the snippet source, title wins over
cleaned filename when present and not "Unknown". -/
def mkSource (doc : Doc) : Src :=
  let raw_filename := doc.metadata.filename.getD ""
  let title := doc.metadata.title.getD ""
  let clean_filename := clean12Hex raw_filename
  let clean_title := clean12Hex title
  let file_info := if title ≠ "" ∧ title ≠ "Unknown" then clean_title else clean_filename
  let snippet_text :=
    match doc.metadata.original_text with
    | some t => if t = "" then doc.text else t
    | none => doc.text
  { source := doc.metadata.source.getD "Unknown"
    file := file_info
    filename := raw_filename
    page := doc.metadata.page_number
    total_pages := doc.metadata.total_pages
    snippet := pyTruncSnippet snippet_text
    score := doc.score }

/-- `RAGPipeline._extract_sources`: one source entry per document, in
order; no deduplication is performed. -/
def _extract_sources (documents : List Doc) : List Src :=
  documents.map mkSource

/-- `RAGPipeline._calculate_confidence`. -/
def _calculate_confidence (documents : List Doc) : String :=
  let count := documents.length
  if count ≥ 4 then "High"
  else if count ≥ 2 then "Medium"
  else "Low"

/-- The in-place mutation of one document inside the reranking loop:
`doc['score'] = float(score); doc['metadata']['rerank_score'] = float(score)`. -/
def rerankDoc (r : String → String → ℚ) (search_query : String) (d : Doc) : Doc :=
  { d with
    score := r search_query d.text
    metadata := { d.metadata with rerank_score := some (r search_query d.text) } }

/-- `docs.sort(key=lambda x: x['score'], reverse=True)`: stable descending
sort by score. -/
def sortDescByScore (l : List Doc) : List Doc :=
  List.insertionSort (fun a b => b.score ≤ a.score) l

/-- Step 2 of `RAGPipeline.query` (reranking): skipped when the reranker
is unavailable or no documents were retrieved; on a raised `predict`
exception the original order is kept and `reranked` stays false; otherwise
every document's score is overwritten by its cross-encoder logit, the list
is sorted descending and cut to `rag_rerank_top_k`. -/
def rerankStage (env : Env) (search_query : String) (docs : List Doc) :
    List Doc × Bool × List Event :=
  match env.reranker with
  | none => (docs, false, [])
  | some r =>
    if docs.isEmpty then (docs, false, [])
    else if env.rerankFails then (docs, false, [Event.rerankPredict search_query])
    else
      ((sortDescByScore (docs.map (rerankDoc r search_query))).take env.rag_rerank_top_k,
        true, [Event.rerankPredict search_query])

/-- The search string fed to retrieval: the question run through
`detect_language` and `translate_query_to_english`. -/
def searchQueryOf (env : Env) (question : String) : String × List Event :=
  translate_query_to_english env.queryTranslate question (detect_language question)

/-- `retrieval_k = top_k or settings.rag_top_k` (Python `or`: a `0`
argument is falsy and falls back to the setting). -/
def retrievalK (env : Env) (top_k : Option Nat) : Nat :=
  match top_k with
  | some k => if k = 0 then env.rag_top_k else k
  | none => env.rag_top_k

/-- Step 1 of `RAGPipeline.query`: `self.vector_store.search(...)`. -/
def retrievedDocs (env : Env) (question : String) (top_k : Option Nat) : List Doc :=
  env.search (searchQueryOf env question).1 (retrievalK env top_k)

/-- Steps 1–2 combined. -/
def rerankOut (env : Env) (question : String) (top_k : Option Nat) :
    List Doc × Bool × List Event :=
  rerankStage env (searchQueryOf env question).1 (retrievedDocs env question top_k)

/-- The `reranked` flag of one query run. -/
def rerankedOf (env : Env) (question : String) (top_k : Option Nat) : Bool :=
  (rerankOut env question top_k).2.1

/-- Step 3 of `RAGPipeline.query`: when reranking happened the reranked
top-k list is trusted; otherwise the similarity threshold filter applies. -/
def relevantDocsOf (env : Env) (question : String) (top_k : Option Nat) : List Doc :=
  let ro := rerankOut env question top_k
  if ro.2.1 then ro.1
  else ro.1.filter fun d => env.rag_relevance_threshold ≤ d.score

/-- The events emitted before the empty-result check. -/
def preEventsOf (env : Env) (question : String) (top_k : Option Nat) : List Event :=
  (searchQueryOf env question).2
    ++ [Event.vectorSearch (searchQueryOf env question).1 (retrievalK env top_k)]
    ++ (rerankOut env question top_k).2.2

/-- `response_lang = language_preference or query_lang`, with `MIXED`
resolved to English. -/
def respLangOf (question : String) (language_preference : Option Language) : Language :=
  let r := language_preference.getD (detect_language question)
  if r = Language.MIXED then Language.ENGLISH else r

/-- `RAGPipeline.query`: detection, translation, retrieval, reranking,
threshold filter, the insufficient-information short-circuit, context
assembly, prompt building, generation (whose failure raises `AIError`,
modelled as `Except.error`), response-language enforcement, source
extraction and confidence.  Returns the response together with the list of
emitted stage events. -/
def query (env : Env) (question : String)
    (language_preference : Option Language := none) (top_k : Option Nat := none) :
    Except String RAGResponse × List Event :=
  let query_lang := detect_language question
  let response_lang := respLangOf question language_preference
  let relevant_docs := relevantDocsOf env question top_k
  let reranked := rerankedOf env question top_k
  let preEvts := preEventsOf env question top_k
  if relevant_docs.isEmpty then
    (Except.ok
      { answer := ensure_response_language env.trans no_info_msg response_lang
        sources := []
        query_language := query_lang
        confidence := "Low"
        model_used := env.llm_type
        reranked := reranked }, preEvts)
  else
    let context := assembleContext relevant_docs
    let prompt := SHARIAH_PROMPT_format
      (joinWith "\n" (env.knowledge_sources.map fun s => "- " ++ s))
      context question query_lang.display_name response_lang.display_name
    let evts := preEvts ++
      [Event.contextAssembly context, Event.promptBuild prompt, Event.llmGenerate prompt]
    match env.generate prompt with
    | Except.error e => (Except.error ("Query failed: " ++ e), evts)
    | Except.ok raw_answer =>
      (Except.ok
        { answer := ensure_response_language env.trans raw_answer response_lang
          sources := _extract_sources relevant_docs
          query_language := query_lang
          confidence := _calculate_confidence relevant_docs
          model_used := env.llm_type
          reranked := reranked }, evts)

/-- Events of the stages that claim C1 says must be skipped on the
insufficient-information short-circuit. -/
def isSkippedStageEvent : Event → Bool
  | .contextAssembly _ => true
  | .promptBuild _ => true
  | .llmGenerate _ => true
  | _ => false

/-- Rank of a confidence label, for the monotonicity part of C6. -/
def confRank (s : String) : Nat :=
  if s = "Low" then 0 else if s = "Medium" then 1 else 2

/-- `Except.is_ok`-style check. -/
def exceptIsOk {ε α : Type} : Except ε α → Bool
  | .ok _ => true
  | .error _ => false

/-- Environment for the C1 witness: retrieval finds nothing. -/
def wEnvC1 : Env :=
  { rag_top_k := 60
    rag_rerank_top_k := 25
    rag_relevance_threshold := 1
    knowledge_sources := []
    llm_type := "ollama"
    reranker := none
    rerankFails := false
    search := fun _ _ => []
    queryTranslate := fun _ _ => none
    generate := fun _ => Except.ok "unused"
    trans := { langdetect := fun _ => some "en", translate := fun _ _ => some "unused" } }

/-- Metadata of the duplicated passage used against C3. -/
def cMeta3 : Metadata :=
  { source := some "BNM"
    title := some "Tawarruq Policy"
    filename := some "doc.pdf"
    page_number := some "3"
    total_pages := some "10"
    original_text := none
    rerank_score := none }

/-- The duplicated passage used against C3. -/
def cDoc3 : Doc :=
  { text := "Tawarruq is permissible.", score := 1, metadata := cMeta3 }

/-- Environment for the C3 counterexample: the vector store returns the
same passage twice, no reranker, threshold 0, LLM answers "ok". -/
def cEnv3 : Env :=
  { rag_top_k := 60
    rag_rerank_top_k := 25
    rag_relevance_threshold := 0
    knowledge_sources := ["BNM"]
    llm_type := "ollama"
    reranker := none
    rerankFails := false
    search := fun _ _ => [cDoc3, cDoc3]
    queryTranslate := fun _ _ => none
    generate := fun _ => Except.ok "ok"
    trans := { langdetect := fun _ => none, translate := fun _ _ => none } }

/-- The citation extracted from `cDoc3`. -/
def cSrc3 : Src :=
  { source := "BNM"
    file := "Tawarruq Policy"
    filename := "doc.pdf"
    page := some "3"
    total_pages := some "10"
    snippet := "Tawarruq is permissible."
    score := 1 }

/-- The full response of the C3 counterexample run. -/
def cResp3 : RAGResponse :=
  { answer := "ok"
    sources := [cSrc3, cSrc3]
    query_language := Language.ENGLISH
    confidence := "Medium"
    model_used := "ollama"
    reranked := false }

/-- Passage used against C4, carrying vector similarity 1. -/
def cDoc4 : Doc :=
  { text := "Murabaha passage"
    score := 1
    metadata :=
      { source := some "AAOIFI"
        title := none
        filename := none
        page_number := none
        total_pages := none
        original_text := none
        rerank_score := none } }

/-- Environment for the C4 counterexample: a reranker whose logit is 5. -/
def cEnv4 : Env :=
  { rag_top_k := 60
    rag_rerank_top_k := 25
    rag_relevance_threshold := 0
    knowledge_sources := []
    llm_type := "ollama"
    reranker := some fun _ _ => 5
    rerankFails := false
    search := fun _ _ => [cDoc4]
    queryTranslate := fun _ _ => none
    generate := fun _ => Except.ok "ok"
    trans := { langdetect := fun _ => none, translate := fun _ _ => none } }

/-- `cDoc4` after the reranking mutation: both score fields hold the logit
5; the original similarity 1 survives nowhere. -/
def cDoc4r : Doc :=
  { text := "Murabaha passage"
    score := 5
    metadata :=
      { source := some "AAOIFI"
        title := none
        filename := none
        page_number := none
        total_pages := none
        original_text := none
        rerank_score := some 5 } }

/-- A query-side translator that always fails, for the C5 witness. -/
def failQueryTranslate : String → String → Option String := fun _ _ => none

/-- An answer-side environment whose translator always fails but whose
detector works, for the C5 witness. -/
def failTransEnv : TransEnv :=
  { langdetect := fun _ => some "en", translate := fun _ _ => none }

/-- Keyword parameters accepted by `ChatService.ask`
(`src/services/chat.py`, besides `self`). -/
def chatServiceAskParams : List String := ["question", "language", "model"]

/-- Keyword arguments passed to `service.ask(...)` by the `/chat` handler
in `src/api/main.py`. -/
def chatEndpointAskKwargs : List String :=
  ["question", "language", "model", "chat_history"]

/-- A Python keyword call binds iff every given keyword is an accepted
parameter (no `**kwargs` catch-all on `ChatService.ask`); otherwise the
call raises `TypeError`. -/
def pythonCallOk (accepted given : List String) : Bool :=
  given.all fun k => accepted.contains k

/-- The source label as claim C8 words it: `[Source i: <source> - <cleaned
title or filename>, Page <p>]`, the title/filename part and page part
present when non-empty. -/
def claimedSourceLabel (i : Nat) (d : Doc) : String :=
  let source := d.metadata.source.getD "Unknown"
  let title := d.metadata.title.getD ""
  let page := d.metadata.page_number.getD ""
  let display := if title ≠ "" ∧ title ≠ "Unknown" then clean12Hex title
    else clean12Hex (d.metadata.filename.getD "")
  joinWith ""
    (["[Source ", toString i, ": ", source]
      ++ (if display ≠ "" then [" - ", display] else [])
      ++ (if page ≠ "" then [", Page ", page] else [])
      ++ ["]"])

/-- The per-passage context entries as claim C8 words them: 1-based label
line, newline, raw passage text, in filter output order. -/
def claimedParts : Nat → List Doc → List String
  | _, [] => []
  | i, d :: ds => (claimedSourceLabel i d ++ "\n" ++ d.text) :: claimedParts (i + 1) ds

/-- The context block as claim C8 words it: entries separated by one blank
line. -/
def assembleContextClaimed (docs : List Doc) : String :=
  joinWith "\n\n" (claimedParts 1 docs)

/-- The context block as amended: entries separated by a blank line, a
`---` divider line and a blank line. -/
def assembleContextAmended (docs : List Doc) : String :=
  joinWith "\n\n---\n\n" (claimedParts 1 docs)

/-- Metadata for the C8 counterexample passages. -/
def c8meta (p : String) : Metadata :=
  { source := some "BNM"
    title := some "Murabaha Standard"
    filename := none
    page_number := some p
    total_pages := none
    original_text := none
    rerank_score := none }

/-- First C8 counterexample passage. -/
def c8d1 : Doc := { text := "T1", score := 1, metadata := c8meta "3" }

/-- Second C8 counterexample passage. -/
def c8d2 : Doc := { text := "T2", score := 1, metadata := c8meta "4" }

instance {ε α : Type} [DecidableEq ε] [DecidableEq α] : DecidableEq (Except ε α) := by
  intro a b
  cases a <;> cases b
  case error.error x y =>
    exact if h : x = y then isTrue (by rw [h]) else
      isFalse (fun hc => h (Except.error.inj hc))
  case error.ok x y => exact isFalse (fun hc => Except.noConfusion hc)
  case ok.error x y => exact isFalse (fun hc => Except.noConfusion hc)
  case ok.ok x y =>
    exact if h : x = y then isTrue (by rw [h]) else
      isFalse (fun hc => h (Except.ok.inj hc))

instance : IsTotal Doc fun a b => b.score ≤ a.score :=
  ⟨fun a b => le_total b.score a.score⟩

instance : IsTrans Doc fun a b => b.score ≤ a.score :=
  ⟨fun _ _ _ hab hbc => le_trans hbc hab⟩

/-! ## Theorems -/

theorem pyStrip_empty : pyStrip "" = "" := rfl

/-- The float comparison `arabic/total > 0.6` in exact rational arithmetic is
the cross-multiplied Nat comparison used in `detect_language`. -/
theorem ratio_gt_six_tenths_iff (a t : Nat) (ht : t ≠ 0) :
    ((a : ℚ) / (t : ℚ) > 0.6) ↔ 10 * a > 6 * t := by
  have ht' : (0 : ℚ) < (t : ℚ) := by
    exact_mod_cast Nat.pos_of_ne_zero ht
  rw [gt_iff_lt, show (0.6 : ℚ) = 6 / 10 by norm_num,
    div_lt_div_iff₀ (by norm_num) ht']
  rw [show ((6 : ℚ) * t < a * 10) ↔ ((6 * t : Nat) : ℚ) < ((a * 10 : Nat) : ℚ) by push_cast; ring_nf]
  rw [Nat.cast_lt]
  omega

/-- The float comparison `arabic/total > 0.1` in exact rational arithmetic is
the cross-multiplied Nat comparison used in `detect_language`. -/
theorem ratio_gt_one_tenth_iff (a t : Nat) (ht : t ≠ 0) :
    ((a : ℚ) / (t : ℚ) > 0.1) ↔ 10 * a > t := by
  have ht' : (0 : ℚ) < (t : ℚ) := by
    exact_mod_cast Nat.pos_of_ne_zero ht
  rw [gt_iff_lt, show (0.1 : ℚ) = 1 / 10 by norm_num,
    div_lt_div_iff₀ (by norm_num) ht']
  rw [show ((1 : ℚ) * t < a * 10) ↔ ((1 * t : Nat) : ℚ) < ((a * 10 : Nat) : ℚ) by push_cast; ring_nf]
  rw [Nat.cast_lt]
  omega

/-- C2: `detect_language` agrees with the spec's case analysis on every
input string: English for empty/whitespace-only or letterless input, Arabic
above ratio 0.6, Mixed in (0.1, 0.6], Malay per the short-input single-marker
rule or the two-distinct-markers rule, else English. -/
theorem C2_detect_language_matches_spec :
    ∀ text : String, detect_language text = detect_language_claimed text := by
  intro text
  simp only [detect_language, detect_language_claimed]
  by_cases hblank : text = "" ∨ pyStrip text = ""
  · have hstrip : pyStrip text = "" := by
      rcases hblank with h | h
      · rw [h]; rfl
      · exact h
    rw [if_pos hblank, if_pos (Or.inl hstrip)]
  · have hstrip : ¬ pyStrip text = "" := fun h => hblank (Or.inr h)
    rw [if_neg hblank]
    by_cases htot : arabicCount text + latinCount text = 0
    · rw [if_pos htot, if_pos (Or.inr htot)]
    · have hnot : ¬ (pyStrip text = "" ∨ arabicCount text + latinCount text = 0) := by
        push_neg
        exact ⟨hstrip, htot⟩
      rw [if_neg htot, if_neg hnot]
      have hgt6 := ratio_gt_six_tenths_iff (arabicCount text) (arabicCount text + latinCount text) htot
      have hgt1 := ratio_gt_one_tenth_iff (arabicCount text) (arabicCount text + latinCount text) htot
      by_cases har : 10 * arabicCount text > 6 * (arabicCount text + latinCount text)
      · rw [if_pos har, if_pos (hgt6.mpr har)]
      · have harq : ¬ ((arabicCount text : ℚ) /
            ((arabicCount text + latinCount text : Nat) : ℚ) > 0.6) :=
          fun hq => har (hgt6.mp hq)
        rw [if_neg har, if_neg harq]
        by_cases hmx : 10 * arabicCount text > arabicCount text + latinCount text
        · have hle : (arabicCount text : ℚ) /
              ((arabicCount text + latinCount text : Nat) : ℚ) ≤ 0.6 := not_lt.mp harq
          rw [if_pos hmx, if_pos ⟨hgt1.mpr hmx, hle⟩]
        · have hmxq : ¬ (0.1 < (arabicCount text : ℚ) /
              ((arabicCount text + latinCount text : Nat) : ℚ) ∧
              (arabicCount text : ℚ) /
              ((arabicCount text + latinCount text : Nat) : ℚ) ≤ 0.6) :=
            fun hq => hmx (hgt1.mp hq.1)
          rw [if_neg hmx, if_neg hmxq]
          by_cases hshort : (pyWords text).length ≤ 5 ∧ malayMatchCount text ≥ 1
          · rw [if_pos hshort, if_pos (Or.inl hshort)]
          · rw [if_neg hshort]
            by_cases hmany : malayMatchCount text ≥ 2
            · rw [if_pos hmany, if_pos (Or.inr hmany)]
            · rw [if_neg hmany, if_neg (fun h => h.elim hshort hmany)]

theorem splitPP_ne_nil : ∀ cs, splitPP cs ≠ [] := by
  intro cs
  match cs with
  | [] => simp [splitPP]
  | [c] => simp [splitPP]
  | c1 :: c2 :: rest =>
    rw [splitPP.eq_3]
    split
    · simp
    · rcases hs : splitPP (c2 :: rest) with _ | ⟨p, ps⟩ <;> simp

theorem joinPP_two (p q : List Char) (qs : List (List Char)) :
    joinPP (p :: q :: qs) = p ++ '\n' :: '\n' :: joinPP (q :: qs) := by
  rfl

theorem joinPP_splitPP_bounded :
    ∀ n cs, List.length cs ≤ n → joinPP (splitPP cs) = cs := by
  intro n
  induction n with
  | zero =>
    intro cs hlen
    cases cs with
    | nil => rfl
    | cons c rest => simp at hlen
  | succ n ih =>
    intro cs hlen
    match cs with
    | [] => rfl
    | [c] => rfl
    | c1 :: c2 :: rest =>
      rw [splitPP.eq_3]
      by_cases hnn : c1 = '\n' ∧ c2 = '\n'
      · rw [if_pos hnn]
        obtain ⟨h1, h2⟩ := hnn
        subst h1; subst h2
        rcases hs : splitPP rest with _ | ⟨q, qs⟩
        · exact absurd hs (splitPP_ne_nil rest)
        · have ihr := ih rest (by simp at hlen; omega)
          rw [hs] at ihr
          rw [joinPP_two, ihr, List.nil_append]
      · rw [if_neg hnn]
        rcases hs : splitPP (c2 :: rest) with _ | ⟨q, qs⟩
        · exact absurd hs (splitPP_ne_nil (c2 :: rest))
        · have ihr := ih (c2 :: rest) (by simp at hlen ⊢; omega)
          rw [hs] at ihr
          simp only [hs]
          cases qs with
          | nil =>
            simp only [joinPP] at ihr ⊢
            rw [ihr]
          | cons q2 qs2 =>
            rw [joinPP_two] at ihr
            rw [joinPP_two, List.cons_append, ihr]

theorem joinPP_splitPP (cs : List Char) : joinPP (splitPP cs) = cs :=
  joinPP_splitPP_bounded cs.length cs le_rfl

theorem joinWithPP_map (l : List (List Char)) :
    joinWithPP (l.map fun p => (⟨p⟩ : String)) = ⟨joinPP l⟩ := by
  induction l with
  | nil => rfl
  | cons p ps ih =>
    cases ps with
    | nil => rfl
    | cons q qs =>
      simp only [List.map, joinWithPP, joinPP] at ih ⊢
      rw [ih]
      apply String.ext
      simp

theorem joinWithPP_pySplitPP (s : String) : joinWithPP (pySplitPP s) = s := by
  rw [pySplitPP, joinWithPP_map, joinPP_splitPP]

/-- `ensure_response_language` leaves a text unchanged once its detected
language matches the target. -/
theorem ensure_fixed_of_converged (tenv : TransEnv) (text : String)
    (target : Language) (h : convergedTo tenv text target) :
    ensure_response_language tenv text target = text := by
  obtain ⟨d, hd, hmatch⟩ := h
  have hne : ¬ (text = "" ∨ pyStrip text = "") := by
    intro hb
    have : detect_output_language tenv text = none := by
      rcases hb with hb | hb
      · simp [detect_output_language, hb]
      · simp [detect_output_language, hb]
    rw [this] at hd
    exact Option.noConfusion hd
  have hdec : needsTranslation tenv text (LANGUAGE_TO_CODE target) false = false := by
    unfold needsTranslation
    rw [if_neg (by decide : ¬ (false = true)), hd]
    change (if LANGUAGE_TO_CODE target = "ms" ∧ (d = "ms" ∨ d = "id") then false
      else if d = LANGUAGE_TO_CODE target then false else true) = false
    rcases hmatch with hmatch | ⟨hms, hd2⟩
    · by_cases hms : LANGUAGE_TO_CODE target = "ms" ∧ (d = "ms" ∨ d = "id")
      · rw [if_pos hms]
      · rw [if_neg hms, if_pos hmatch]
    · have hcond : LANGUAGE_TO_CODE target = "ms" ∧ (d = "ms" ∨ d = "id") := ⟨hms, hd2⟩
      rw [if_pos hcond]
  rw [ensure_response_language, if_neg hne]
  simp only [hdec, Bool.false_eq_true, if_false]

/-- C9: once a first application of `ensure_response_language` has produced a
result whose detected language matches the target (Malay/Indonesian
equivalent for a Malay target), a second application returns that result
unchanged. -/
theorem C9_ensure_response_language_idempotent (tenv : TransEnv)
    (answer : String) (target : Language)
    (h : convergedTo tenv (ensure_response_language tenv answer target) target) :
    ensure_response_language tenv (ensure_response_language tenv answer target) target
      = ensure_response_language tenv answer target :=
  ensure_fixed_of_converged tenv (ensure_response_language tenv answer target) target h

/-- Witness for C9 at a concrete input: the answer "already in english" is
detected as English, so a second `ensure_response_language` application
returns the first result unchanged. -/
theorem C9_witness :
    convergedTo wTransEnv9
      (ensure_response_language wTransEnv9 "already in english" Language.ENGLISH)
      Language.ENGLISH ∧
    ensure_response_language wTransEnv9
      (ensure_response_language wTransEnv9 "already in english" Language.ENGLISH)
      Language.ENGLISH
      = ensure_response_language wTransEnv9 "already in english" Language.ENGLISH := by
  have hc : convergedTo wTransEnv9
      (ensure_response_language wTransEnv9 "already in english" Language.ENGLISH)
      Language.ENGLISH := by
    unfold convergedTo
    exact ⟨"en", by decide, Or.inl (by decide)⟩
  exact ⟨hc, C9_ensure_response_language_idempotent wTransEnv9 "already in english"
    Language.ENGLISH hc⟩

theorem translate_events_benign (tr : String → String → Option String)
    (q : String) (l : Language) :
    ((translate_query_to_english tr q l).2.all fun e => !(isSkippedStageEvent e)) = true := by
  unfold translate_query_to_english
  by_cases h : l = Language.ENGLISH
  · rw [if_pos h]
    rfl
  · rw [if_neg h]
    simp only
    cases tr (query_lang_code l) q <;> rfl

theorem rerank_events_benign (env : Env) (sq : String) (docs : List Doc) :
    ((rerankStage env sq docs).2.2.all fun e => !(isSkippedStageEvent e)) = true := by
  unfold rerankStage
  cases env.reranker with
  | none => rfl
  | some r =>
    cases hE : docs.isEmpty <;> cases hf : env.rerankFails <;>
      simp [hE, hf, isSkippedStageEvent]

theorem preEvents_benign (env : Env) (question : String) (top_k : Option Nat) :
    ((preEventsOf env question top_k).all fun e => !(isSkippedStageEvent e)) = true := by
  unfold preEventsOf
  simp only [List.all_append, Bool.and_eq_true]
  exact ⟨⟨translate_events_benign _ _ _, rfl⟩, rerank_events_benign _ _ _⟩

/-- C1: when the relevance-filter stage yields no passages, `query` returns
the fixed insufficient-information answer (run through the
response-language correction), empty sources and Low confidence, and it
emits no context-assembly, prompt-building or LLM-generation event. -/
theorem C1_insufficient_info_short_circuit (env : Env) (question : String)
    (language_preference : Option Language) (top_k : Option Nat)
    (h : relevantDocsOf env question top_k = []) :
    (query env question language_preference top_k).1 = Except.ok
      { answer := ensure_response_language env.trans no_info_msg
          (respLangOf question language_preference)
        sources := []
        query_language := detect_language question
        confidence := "Low"
        model_used := env.llm_type
        reranked := rerankedOf env question top_k } ∧
    ((query env question language_preference top_k).2.all
      fun e => !(isSkippedStageEvent e)) = true := by
  have he : (relevantDocsOf env question top_k).isEmpty = true := by
    rw [h]; rfl
  constructor
  · simp only [query, he, if_true]
  · simp only [query, he, if_true]
    exact preEvents_benign env question top_k

/-- Witness for C1 at a concrete environment whose retrieval returns
nothing: the short-circuit response is observed. -/
theorem C1_witness :
    relevantDocsOf wEnvC1 "hello" none = [] ∧
    (query wEnvC1 "hello" none none).1 = Except.ok
      { answer := no_info_msg
        sources := []
        query_language := Language.ENGLISH
        confidence := "Low"
        model_used := "ollama"
        reranked := false } ∧
    ((query wEnvC1 "hello" none none).2.all fun e => !(isSkippedStageEvent e)) = true := by
  have h0 : relevantDocsOf wEnvC1 "hello" none = [] := by decide
  have h := C1_insufficient_info_short_circuit wEnvC1 "hello" none none h0
  refine ⟨h0, ?_, h.2⟩
  rw [h.1]
  decide

theorem query_ok_sources (env : Env) (question : String)
    (lp : Option Language) (tk : Option Nat) (r : RAGResponse)
    (h : (query env question lp tk).1 = Except.ok r) :
    r.sources = _extract_sources (relevantDocsOf env question tk) := by
  cases hE : (relevantDocsOf env question tk).isEmpty with
  | true =>
    simp only [query, hE, if_true] at h
    have hnil : relevantDocsOf env question tk = [] := List.isEmpty_iff.mp hE
    cases h
    rw [hnil]
    rfl
  | false =>
    simp only [query, hE, Bool.false_eq_true, if_false] at h
    split at h
    · exact absurd h (by simp)
    · cases h
      rfl

/-- C3 counterexample: a run whose response has non-empty sources
containing the same citation twice — `_extract_sources` performs no
deduplication, so the claimed "deduplicated list" property fails. -/
theorem C3_counterexample :
    (query cEnv3 "What is Tawarruq?" none none).1 = Except.ok cResp3 ∧
    cResp3.sources = [cSrc3, cSrc3] ∧
    ¬ cResp3.sources.Nodup := by
  refine ⟨by decide, by decide, by decide⟩

/-- C3 amended: the sources of every successful response are exactly
`_extract_sources` of the passages that passed the relevance filter of the
same query — in particular every citation corresponds to a surviving
passage (no orphans) — but no deduplication is performed. -/
theorem C3_amended_sources_from_filter (env : Env) (question : String)
    (lp : Option Language) (tk : Option Nat) (r : RAGResponse)
    (h : (query env question lp tk).1 = Except.ok r)
    (hne : r.sources ≠ []) :
    r.sources = _extract_sources (relevantDocsOf env question tk) ∧
    ∀ s ∈ r.sources, ∃ d ∈ relevantDocsOf env question tk, s = mkSource d := by
  have hs := query_ok_sources env question lp tk r h
  refine ⟨hs, ?_⟩
  intro s hmem
  rw [hs] at hmem
  unfold _extract_sources at hmem
  obtain ⟨d, hd, hsd⟩ := List.mem_map.mp hmem
  exact ⟨d, hd, hsd.symm⟩

/-- Witness for the amended C3 at the concrete duplicated-passage run. -/
theorem C3_amended_witness :
    cResp3.sources = _extract_sources (relevantDocsOf cEnv3 "What is Tawarruq?" none) ∧
    ∀ s ∈ cResp3.sources, ∃ d ∈ relevantDocsOf cEnv3 "What is Tawarruq?" none,
      s = mkSource d :=
  C3_amended_sources_from_filter cEnv3 "What is Tawarruq?" none none cResp3
    (by decide) (by decide)

/-- C4 counterexample: reranking writes the logit (5) into both the
passage's main `score` field and `metadata.rerank_score`; the original
vector similarity (1) is overwritten and survives in no field of the
reranked passage, contradicting "the original similarityScore remains
recoverable on the passage after reranking". -/
theorem C4_counterexample :
    (rerankStage cEnv4 "murabaha" [cDoc4]).1 = [cDoc4r] ∧
    (rerankStage cEnv4 "murabaha" [cDoc4]).2.1 = true ∧
    cDoc4.score = 1 ∧
    cDoc4r.score = 5 ∧
    cDoc4r.metadata.rerank_score = some 5 ∧
    cDoc4r.score ≠ 1 ∧
    cDoc4r.metadata.rerank_score ≠ some 1 := by
  refine ⟨by decide, by decide, by decide, by decide, by decide, by decide, by decide⟩

/-- C4 amended: on a successful rerank every surviving passage carries its
raw cross-encoder logit as `score`, the separate `rerank_score` metadata
field holds exactly that same number (never a blend), the output is sorted
descending by that logit and consists of score-mutated input passages; the
original `similarityScore` is overwritten (see the counterexample). -/
theorem C4_amended_rerank_scores (env : Env) (search_query : String)
    (docs : List Doc) (r : String → String → ℚ)
    (hr : env.reranker = some r) (hf : env.rerankFails = false)
    (hne : docs ≠ []) :
    (rerankStage env search_query docs).2.1 = true ∧
    (∀ d ∈ (rerankStage env search_query docs).1,
      d.score = r search_query d.text ∧ d.metadata.rerank_score = some d.score) ∧
    (∀ d ∈ (rerankStage env search_query docs).1,
      ∃ d0 ∈ docs, d = rerankDoc r search_query d0) ∧
    List.Sorted (fun a b => b.score ≤ a.score) (rerankStage env search_query docs).1 := by
  have hE : docs.isEmpty = false := by
    cases docs with
    | nil => exact absurd rfl hne
    | cons d ds => rfl
  have hout : (rerankStage env search_query docs).1 =
      (sortDescByScore (docs.map (rerankDoc r search_query))).take env.rag_rerank_top_k ∧
      (rerankStage env search_query docs).2.1 = true := by
    unfold rerankStage
    rw [hr]
    simp [hE, hf]
  have hmem : ∀ d ∈ (rerankStage env search_query docs).1,
      ∃ d0 ∈ docs, d = rerankDoc r search_query d0 := by
    intro d hd
    rw [hout.1] at hd
    have hd2 : d ∈ sortDescByScore (docs.map (rerankDoc r search_query)) :=
      List.mem_of_mem_take hd
    have hd3 : d ∈ docs.map (rerankDoc r search_query) :=
      (List.perm_insertionSort _ _).mem_iff.mp hd2
    obtain ⟨d0, hd0, hdd⟩ := List.mem_map.mp hd3
    exact ⟨d0, hd0, hdd.symm⟩
  refine ⟨hout.2, ?_, hmem, ?_⟩
  · intro d hd
    obtain ⟨d0, _, hdd⟩ := hmem d hd
    subst hdd
    exact ⟨rfl, rfl⟩
  · rw [hout.1]
    exact List.Pairwise.sublist (List.take_sublist _ _)
      (List.sorted_insertionSort _ _)

/-- Witness for the amended C4 at the concrete single-passage rerank. -/
theorem C4_amended_witness :
    (rerankStage cEnv4 "murabaha" [cDoc4]).2.1 = true ∧
    (∀ d ∈ (rerankStage cEnv4 "murabaha" [cDoc4]).1,
      d.score = (fun _ _ => (5 : ℚ)) "murabaha" d.text ∧
      d.metadata.rerank_score = some d.score) ∧
    (∀ d ∈ (rerankStage cEnv4 "murabaha" [cDoc4]).1,
      ∃ d0 ∈ [cDoc4], d = rerankDoc (fun _ _ => (5 : ℚ)) "murabaha" d0) ∧
    List.Sorted (fun a b => b.score ≤ a.score) (rerankStage cEnv4 "murabaha" [cDoc4]).1 :=
  C4_amended_rerank_scores cEnv4 "murabaha" [cDoc4] (fun _ _ => 5) rfl rfl
    (by decide)

theorem translateParas_all_none (tenv : TransEnv) (tc : String)
    (h : ∀ s c, tenv.translate s c = none) (ps : List String) :
    translateParas tenv tc ps = none ∨ translateParas tenv tc ps = some ps := by
  induction ps with
  | nil => right; rfl
  | cons p rest ih =>
    unfold translateParas
    by_cases hb : pyStrip p ≠ ""
    · rw [if_pos hb, h p tc]
      left; rfl
    · rw [if_neg hb]
      rcases ih with ih | ih <;> rw [ih]
      · left; rfl
      · right; rfl

theorem translateChunked_all_none (tenv : TransEnv) (resp tc : String)
    (h : ∀ s c, tenv.translate s c = none) :
    translateChunked tenv resp tc = none ∨ translateChunked tenv resp tc = some resp := by
  unfold translateChunked
  by_cases hl : resp.length ≤ 4500
  · rw [if_pos hl, h]
    left; rfl
  · rw [if_neg hl]
    rcases translateParas_all_none tenv tc h (pySplitPP resp) with hp | hp <;> rw [hp]
    · left; rfl
    · right
      show some (joinWithPP (pySplitPP resp)) = some resp
      rw [joinWithPP_pySplitPP]

/-- C5: translation failure is never fatal.  English queries skip the
translator and pass through unchanged; a failing query-side translator
leaves any query unchanged; a failing answer-side translator leaves any
answer unchanged; and as long as the LLM generation succeeds, the whole
query succeeds regardless of translator behaviour. -/
theorem C5_translation_failure_non_fatal :
    (∀ (tr : String → String → Option String) (q : String),
      translate_query_to_english tr q Language.ENGLISH = (q, [])) ∧
    (∀ (tr : String → String → Option String) (q : String) (lang : Language),
      (∀ c s, tr c s = none) → (translate_query_to_english tr q lang).1 = q) ∧
    (∀ (tenv : TransEnv) (resp : String) (target : Language),
      (∀ s c, tenv.translate s c = none) →
      ensure_response_language tenv resp target = resp) ∧
    (∀ (env : Env) (question : String) (lp : Option Language) (tk : Option Nat),
      (∀ p, exceptIsOk (env.generate p) = true) →
      exceptIsOk (query env question lp tk).1 = true) := by
  refine ⟨?_, ?_, ?_, ?_⟩
  · intro tr q
    rw [translate_query_to_english, if_pos rfl]
  · intro tr q lang h
    unfold translate_query_to_english
    by_cases hl : lang = Language.ENGLISH
    · rw [if_pos hl]
    · rw [if_neg hl]
      simp only [h]
  · intro tenv resp target h
    unfold ensure_response_language
    by_cases hb : resp = "" ∨ pyStrip resp = ""
    · rw [if_pos hb]
    · rw [if_neg hb]
      simp only
      cases hdec : needsTranslation tenv resp (LANGUAGE_TO_CODE target) false with
      | false => rw [if_neg (by simp [hdec])]
      | true =>
        rw [if_pos (by simp [hdec])]
        rcases translateChunked_all_none tenv resp (LANGUAGE_TO_CODE target) h with hc | hc <;>
          rw [hc]
  · intro env question lp tk hg
    unfold query
    simp only
    split
    · rfl
    · split
      · next e heq =>
        have hp := hg (SHARIAH_PROMPT_format
          (joinWith "\n" (List.map (fun s => "- " ++ s) env.knowledge_sources))
          (assembleContext (relevantDocsOf env question tk)) question
          (detect_language question).display_name (respLangOf question lp).display_name)
        rw [heq] at hp
        exact absurd hp (by simp [exceptIsOk])
      · rfl

/-- Witness for C5 at concrete failing translators and the concrete
successful run of `cEnv3`. -/
theorem C5_witness :
    translate_query_to_english failQueryTranslate "hello" Language.ENGLISH = ("hello", []) ∧
    (translate_query_to_english failQueryTranslate "apa khabar" Language.MALAY).1
      = "apa khabar" ∧
    ensure_response_language failTransEnv "jawapan ini dalam bahasa lain" Language.MALAY
      = "jawapan ini dalam bahasa lain" ∧
    exceptIsOk (query cEnv3 "What is Tawarruq?" none none).1 = true :=
  ⟨C5_translation_failure_non_fatal.1 failQueryTranslate "hello",
    C5_translation_failure_non_fatal.2.1 failQueryTranslate "apa khabar" Language.MALAY
      (fun _ _ => rfl),
    C5_translation_failure_non_fatal.2.2.1 failTransEnv "jawapan ini dalam bahasa lain"
      Language.MALAY (fun _ _ => rfl),
    C5_translation_failure_non_fatal.2.2.2 cEnv3 "What is Tawarruq?" none none
      (fun _ => rfl)⟩

theorem confRank_calc (documents : List Doc) :
    confRank (_calculate_confidence documents) =
      if documents.length ≥ 4 then 2 else if documents.length ≥ 2 then 1 else 0 := by
  simp only [_calculate_confidence]
  split_ifs with h1 h2 <;> decide

/-- C6: the confidence estimator is exactly the ≥4 / ≥2 threshold rule on
the surviving passage count, and is non-decreasing in that count
(1 → Low, 2 → Medium, 4 → High, 10 → High). -/
theorem C6_confidence_thresholds :
    (∀ documents : List Doc,
      (_calculate_confidence documents = "High" ↔ 4 ≤ documents.length) ∧
      (_calculate_confidence documents = "Medium" ↔
        2 ≤ documents.length ∧ documents.length < 4) ∧
      (_calculate_confidence documents = "Low" ↔ documents.length < 2)) ∧
    (∀ (documents : List Doc) (d : Doc),
      confRank (_calculate_confidence documents) ≤
        confRank (_calculate_confidence (d :: documents))) ∧
    (∀ d : Doc, _calculate_confidence [d] = "Low") ∧
    (∀ d : Doc, _calculate_confidence [d, d] = "Medium") ∧
    (∀ d : Doc, _calculate_confidence [d, d, d, d] = "High") ∧
    (∀ d : Doc, _calculate_confidence (List.replicate 10 d) = "High") := by
  refine ⟨?_, ?_, fun d => rfl, fun d => rfl, fun d => rfl, fun d => rfl⟩
  · intro documents
    simp only [_calculate_confidence]
    split_ifs with h1 h2
    · exact ⟨⟨fun _ => h1, fun _ => rfl⟩,
        ⟨fun hx => absurd hx (by decide), fun hx => absurd h1 (by omega)⟩,
        ⟨fun hx => absurd hx (by decide), fun hx => absurd h1 (by omega)⟩⟩
    · exact ⟨⟨fun hx => absurd hx (by decide), fun hx => absurd hx h1⟩,
        ⟨fun _ => ⟨h2, by omega⟩, fun _ => rfl⟩,
        ⟨fun hx => absurd hx (by decide), fun hx => absurd h2 (by omega)⟩⟩
    · exact ⟨⟨fun hx => absurd hx (by decide), fun hx => absurd hx h1⟩,
        ⟨fun hx => absurd hx (by decide), fun hx => absurd hx.1 h2⟩,
        ⟨fun _ => by omega, fun _ => rfl⟩⟩
  · intro documents d
    rw [confRank_calc, confRank_calc]
    simp only [List.length_cons]
    split_ifs <;> omega

/-- C7 (code bug): the `/chat` handler in `src/api/main.py` always calls
`ChatService.ask` with a `chat_history` keyword argument, but `ask` accepts
only `question`, `language` and `model`, so the call cannot bind (Python
raises `TypeError`); consequently `RAGPipeline.rewrite_query` is never
reached on any request path. -/
theorem C7_rewriter_not_wired :
    pythonCallOk chatServiceAskParams chatEndpointAskKwargs = false ∧
    chatEndpointAskKwargs.contains "chat_history" = true ∧
    chatServiceAskParams.contains "chat_history" = false := by
  refine ⟨by decide, by decide, by decide⟩

theorem claimedSourceLabel_eq (i : Nat) (d : Doc) :
    claimedSourceLabel i d = sourceLabelOf i d := by
  unfold claimedSourceLabel sourceLabelOf
  simp only
  split_ifs with h1 h2 h3 <;>
    · apply String.ext
      simp [joinWith]

theorem claimedParts_eq : ∀ (i : Nat) (docs : List Doc),
    buildContextParts i docs = claimedParts (i + 1) docs := by
  intro i docs
  induction docs generalizing i with
  | nil => rfl
  | cons d ds ih =>
    simp only [buildContextParts, claimedParts, claimedSourceLabel_eq, ih]

theorem claimedParts_length : ∀ (i : Nat) (docs : List Doc),
    (claimedParts i docs).length = docs.length := by
  intro i docs
  induction docs generalizing i with
  | nil => rfl
  | cons d ds ih => simp [claimedParts, ih]

/-- C8 counterexample: with two surviving passages the assembled context
separates the entries with a blank line, a `---` divider line and a blank
line — not with a single blank line as claimed. -/
theorem C8_counterexample :
    assembleContext [c8d1, c8d2] =
      "[Source 1: BNM - Murabaha Standard, Page 3]\nT1\n\n---\n\n[Source 2: BNM - Murabaha Standard, Page 4]\nT2" ∧
    assembleContext [c8d1, c8d2] ≠ assembleContextClaimed [c8d1, c8d2] := by
  refine ⟨by decide, by decide⟩

/-- C8 amended: the assembled context is exactly the claim's entries —
1-based labels in filter output order, `[Source i: ...]` label line followed
by the raw passage text, hash-prefix cleaning — but consecutive entries are
separated by `"\n\n---\n\n"` (blank line, divider, blank line) instead of a
single blank line. -/
theorem C8_amended_context_assembly (docs : List Doc) :
    assembleContext docs = assembleContextAmended docs ∧
    (claimedParts 1 docs).length = docs.length := by
  constructor
  · unfold assembleContext assembleContextAmended
    rw [claimedParts_eq]
  · exact claimedParts_length 1 docs

/-- C10: Malay marker matching is substring-based, not word-boundary-based.
The three-word English input "When is Ramadan" contains no whitespace-separated
word that is a Malay marker, yet the marker "ada" occurs inside "ramadan", so
`detect_language` classifies the input as Malay. -/
theorem C10_substring_marker_false_positive :
    detect_language "When is Ramadan" = Language.MALAY ∧
    (pyWords "When is Ramadan").length ≤ 5 ∧
    ((pyWords "When is Ramadan").all fun w => !(malay_markers.contains (pyLower w))) = true ∧
    pyContains "ada" (pyLower "When is Ramadan") = true := by
  refine ⟨by decide, by decide, by decide, by decide⟩

end Deen
